import Mathlib

/-!
# modules/send.c : the `send_from` binding

A shallow embedding of `sock_send_from` (modules/send.c, lines 7-29).

The C function is a Python 2 extension entry point.  It is embedded as a
state-passing function over a `Host` state which holds

* the state of the kernel behind `sendto(2)` (an arbitrary type `σ`),
* whether the calling thread holds the interpreter lock (GIL),
* the log of the externally visible actions performed so far.

Everything the C function calls is a separate definition below, named after
the C name, and `sock_send_from` composes them in source order.
-/

namespace Send

/-! ## Constants and types from the system headers -/

/-- The value of `AF_NETLINK` in `<sys/socket.h>` on Linux. -/
def AF_NETLINK : Nat := 16

/-- The C type `struct sockaddr_nl` of `<linux/netlink.h>`:
`nl_family` (16 bit), `nl_pad` (16 bit), `nl_pid` (32 bit), `nl_groups` (32 bit). -/
structure sockaddr_nl where
  nl_family : Nat
  nl_pad : Nat
  nl_pid : Nat
  nl_groups : Nat
  deriving DecidableEq

/-- The value of `sizeof(struct sockaddr_nl)`: 2 + 2 + 4 + 4 bytes. -/
def sizeof_sockaddr_nl : Nat := 12

/-- The value of `INT_MIN` for the 32 bit C `int`. -/
def INT_MIN : Int := -2147483648

/-- The value of `INT_MAX` for the 32 bit C `int`. -/
def INT_MAX : Int := 2147483647

/-! ## Python objects and argument parsing -/

/-- The Python objects that matter to the format string `"iw*"`.

* `PyInt v`: an object that `PyInt_AsLong` converts to the integer `v`
  (an `int`, a `long`, a `bool`);
* `buffer mem readonly contiguous`: an object exporting the buffer
  interface.  `mem` is the exported memory: `none` is a NULL pointer (with
  length 0), `some bs` is a pointer to the bytes `bs`.  A `bytearray` is
  `buffer (some bs) false true`, a `str` is `buffer (some bs) true true`;
* `other`: any other object (`None`, a `float`, a `list`, ...). -/
inductive PyObject where
  | PyInt (v : Int)
  | buffer (mem : Option (List Nat)) (readonly : Bool) (contiguous : Bool)
  | other
  deriving DecidableEq

/-- The fields of the C type `Py_buffer` that `sock_send_from` reads:
`buf` (a pointer, `none` for NULL, otherwise the bytes it points to) and
`len` (the length in bytes). -/
structure Py_buffer where
  buf : Option (List Nat)
  len : Nat
  deriving DecidableEq

/-- Format unit `i` of `PyArg_ParseTuple`: convert a Python integer to a
C `int`; fails on a non-integer and on a value outside `INT_MIN..INT_MAX`. -/
def convert_i : PyObject → Option Int
  | .PyInt v => if INT_MIN ≤ v ∧ v ≤ INT_MAX then some v else none
  | _ => none

/-- Format unit `w*` of `PyArg_ParseTuple`: fill a `Py_buffer` from an
object exporting a read-write, contiguous buffer; fails on an object without
the buffer interface, on a read-only buffer and on a non-contiguous one. -/
def convert_w_star : PyObject → Option Py_buffer
  | .buffer mem false true => some { buf := mem, len := (mem.getD []).length }
  | _ => none

/-- The call `PyArg_ParseTuple(args, "iw*:send_from", &fd, &buf)` of line 15:
exactly two arguments, the first converted by `i`, the second by `w*`.
`none` is the C result 0 (a Python exception is set). -/
def PyArg_ParseTuple (args : List PyObject) : Option (Int × Py_buffer) :=
  match args with
  | [a, b] =>
    match convert_i a with
    | none => none
    | some fd =>
      match convert_w_star b with
      | none => none
      | some buf => some (fd, buf)
  | _ => none

/-! ## The host: kernel, interpreter lock, log of actions -/

/-- The externally visible actions of `sock_send_from`. -/
inductive Event where
  | save_thread
  | sendto (fd : Int) (buf : Option (List Nat)) (len : Nat) (flags : Int)
      (dest : sockaddr_nl) (addrlen : Nat) (ret : Int)
  | restore_thread
  | buffer_release (buf : Py_buffer)
  | int_from_long (n : Int)
  deriving DecidableEq

/-- A log entry: an action together with whether the calling thread held the
interpreter lock when the action started. -/
structure Entry where
  gil_held : Bool
  ev : Event
  deriving DecidableEq

/-- The state threaded through the calls. -/
structure Host (σ : Type) where
  kernel : σ
  gil : Bool
  log : List Entry

/-- What the C code cannot decide by itself:

* `NDEBUG`: whether the module is compiled with `-DNDEBUG`, in which case
  `assert` expands to nothing;
* `stack_pad`: the indeterminate content of `dest.nl_pad`, a field of the
  automatic variable `dest` that the code never writes;
* `sys_sendto`: the system call `sendto(2)`, any function of the kernel state
  and of the six arguments giving the `ssize_t` result and the next kernel
  state. -/
structure Env (σ : Type) where
  NDEBUG : Bool
  stack_pad : Nat
  sys_sendto : σ → Int → Option (List Nat) → Nat → Int → sockaddr_nl → Nat → Int × σ

/-- How a call of the C function ends: it returns a Python integer, it
returns NULL (an exception is set), or the process is aborted by a failed
`assert`. -/
inductive Outcome where
  | returned (n : Int)
  | NULL
  | aborted
  deriving DecidableEq

/-- The macro `Py_BEGIN_ALLOW_THREADS` (line 23): `PyEval_SaveThread()`
releases the interpreter lock. -/
def Py_BEGIN_ALLOW_THREADS {σ : Type} (st : Host σ) : Host σ :=
  { st with gil := false, log := st.log ++ [{ gil_held := st.gil, ev := .save_thread }] }

/-- The call of `sendto` (line 24): the kernel gives the result and moves to
its next state. -/
def sendto {σ : Type} (env : Env σ) (st : Host σ) (fd : Int) (buf : Option (List Nat))
    (len : Nat) (flags : Int) (dest : sockaddr_nl) (addrlen : Nat) : Int × Host σ :=
  let r := env.sys_sendto st.kernel fd buf len flags dest addrlen
  (r.1, { st with
            kernel := r.2,
            log := st.log ++
              [{ gil_held := st.gil, ev := .sendto fd buf len flags dest addrlen r.1 }] })

/-- The macro `Py_END_ALLOW_THREADS` (line 25): `PyEval_RestoreThread()`
takes the interpreter lock again. -/
def Py_END_ALLOW_THREADS {σ : Type} (st : Host σ) : Host σ :=
  { st with gil := true, log := st.log ++ [{ gil_held := st.gil, ev := .restore_thread }] }

/-- The call `PyBuffer_Release(&buf)` (line 27). -/
def PyBuffer_Release {σ : Type} (st : Host σ) (buf : Py_buffer) : Host σ :=
  { st with log := st.log ++ [{ gil_held := st.gil, ev := .buffer_release buf }] }

/-- The call `PyInt_FromLong((long)n)` (line 28): builds the Python integer
of value `n`.  `ssize_t` and `long` have the same width on Linux, so the
value is unchanged.  Failure to allocate the integer object is not
modelled. -/
def PyInt_FromLong {σ : Type} (st : Host σ) (n : Int) : Outcome × Host σ :=
  (.returned n, { st with log := st.log ++ [{ gil_held := st.gil, ev := .int_from_long n }] })

/-- The function `sock_send_from` (lines 7-29), statement by statement.
The parameter `self` is not used by the C code.  The initial value -1 of `n`
(line 11) is overwritten at line 24 before `n` is read.  The method table
registers the function as `METH_VARARGS`, so `args` is the tuple of the
positional arguments. -/
def sock_send_from {σ : Type} (env : Env σ) (st : Host σ) (args : List PyObject) :
    Outcome × Host σ :=
  -- if (!PyArg_ParseTuple(args, "iw*:send_from", &fd, &buf)) return NULL;
  match PyArg_ParseTuple args with
  | none => (.NULL, st)
  | some (fd, buf) =>
    -- assert(buf.buf != 0 && buf.len > 0);
    if !env.NDEBUG && !(buf.buf.isSome && decide (0 < buf.len)) then
      (.aborted, st)
    else
      -- dest.nl_family = AF_NETLINK; dest.nl_pid = 0; dest.nl_groups = 0;
      let dest : sockaddr_nl :=
        { nl_family := AF_NETLINK, nl_pad := env.stack_pad, nl_pid := 0, nl_groups := 0 }
      -- Py_BEGIN_ALLOW_THREADS
      let st1 := Py_BEGIN_ALLOW_THREADS st
      -- n = sendto(fd, buf.buf, buf.len, 0, (struct sockaddr*)&dest, sizeof(struct sockaddr_nl));
      let r := sendto env st1 fd buf.buf buf.len 0 dest sizeof_sockaddr_nl
      -- Py_END_ALLOW_THREADS
      let st3 := Py_END_ALLOW_THREADS r.2
      -- PyBuffer_Release(&buf);
      let st4 := PyBuffer_Release st3 buf
      -- return PyInt_FromLong((long)n);
      PyInt_FromLong st4 r.1

/-! ## Observations on a call -/

/-- The log entries added by one call of `sock_send_from`. -/
def events_of_call {σ : Type} (env : Env σ) (st : Host σ) (args : List PyObject) : List Entry :=
  (sock_send_from env st args).2.log.drop st.log.length

/-- Whether an action is a transmit. -/
def Event.is_sendto : Event → Bool
  | .sendto _ _ _ _ _ _ _ => true
  | _ => false

/-- The transmits among some log entries, in order. -/
def sendto_events (l : List Entry) : List Event :=
  (l.map Entry.ev).filter Event.is_sendto

/-- What a transmit puts on the wire: the descriptor and the first `len`
bytes at the pointer. -/
def Event.wire : Event → Option (Int × List Nat)
  | .sendto fd buf len _ _ _ _ => some (fd, (buf.getD []).take len)
  | _ => none

/-- The sequence of (descriptor, bytes) observed at the transmit layer. -/
def transmits (l : List Entry) : List (Int × List Nat) :=
  (l.map Entry.ev).filterMap Event.wire

/-- A read-write contiguous buffer object holding the bytes `bs`
(a `bytearray`). -/
def bytearray (bs : List Nat) : PyObject := .buffer (some bs) false true

/-- A single-threaded caller calling `send_from(fd, b)` for each object `b`
of a list, one call after another.  A call that aborts ends the process. -/
def serial_calls {σ : Type} (env : Env σ) (fd : PyObject) :
    Host σ → List PyObject → List Outcome × Host σ
  | st, [] => ([], st)
  | st, b :: bs =>
    let r := sock_send_from env st [fd, b]
    match r.1 with
    | .aborted => ([.aborted], r.2)
    | o =>
      let rest := serial_calls env fd r.2 bs
      (o :: rest.1, rest.2)

/-- The destination address that the code builds at lines 19-21. -/
def kernel_dest (pad : Nat) : sockaddr_nl :=
  { nl_family := AF_NETLINK, nl_pad := pad, nl_pid := 0, nl_groups := 0 }

/-! ## The ways a call can go -/

/-- Whether execution gets past line 18: always when `assert` is compiled
out, otherwise when its condition holds. -/
def passes_assert {σ : Type} (env : Env σ) (buf : Py_buffer) : Bool :=
  env.NDEBUG || (buf.buf.isSome && decide (0 < buf.len))

/-- The result of the one `sendto` of a call that gets past line 18. -/
def transmit_result {σ : Type} (env : Env σ) (st : Host σ) (fd : Int) (buf : Py_buffer) : Int :=
  (env.sys_sendto st.kernel fd buf.buf buf.len 0 (kernel_dest env.stack_pad)
    sizeof_sockaddr_nl).1

/-- The log entries of a call that gets past line 18. -/
def run_entries {σ : Type} (env : Env σ) (st : Host σ) (fd : Int) (buf : Py_buffer) :
    List Entry :=
  [{ gil_held := st.gil, ev := .save_thread },
   { gil_held := false,
     ev := .sendto fd buf.buf buf.len 0 (kernel_dest env.stack_pad) sizeof_sockaddr_nl
             (transmit_result env st fd buf) },
   { gil_held := false, ev := .restore_thread },
   { gil_held := true, ev := .buffer_release buf },
   { gil_held := true, ev := .int_from_long (transmit_result env st fd buf) }]

/-! ## Concrete environments used by the closed examples -/

/-- A kernel without state whose `sendto` always gives `r`. -/
def const_env (ndebug : Bool) (r : Int) : Env Unit :=
  { NDEBUG := ndebug, stack_pad := 0, sys_sendto := fun _ _ _ _ _ _ _ => (r, ()) }

/-- A kernel without state that sends everything: `sendto` gives `len`,
and -1 on a negative descriptor. -/
def full_env (ndebug : Bool) : Env Unit :=
  { NDEBUG := ndebug, stack_pad := 0,
    sys_sendto := fun _ fd _ len _ _ _ => (if fd < 0 then -1 else (len : Int), ()) }

/-- The host state before the first call: lock held, empty log. -/
def init_host : Host Unit := { kernel := (), gil := true, log := [] }

/-! ## Basic facts: the three ways a call can go -/

lemma sock_send_from_of_parse_none {σ : Type} (env : Env σ) (st : Host σ)
    (args : List PyObject) (h : PyArg_ParseTuple args = none) :
    sock_send_from env st args = (.NULL, st) := by
  simp [sock_send_from, h]

lemma sock_send_from_of_assert_fails {σ : Type} (env : Env σ) (st : Host σ)
    (args : List PyObject) (fd : Int) (buf : Py_buffer)
    (h : PyArg_ParseTuple args = some (fd, buf)) (ha : passes_assert env buf = false) :
    sock_send_from env st args = (.aborted, st) := by
  simp only [passes_assert, Bool.or_eq_false_iff] at ha
  simp [sock_send_from, h, ha.1, ha.2]

lemma sock_send_from_of_run {σ : Type} (env : Env σ) (st : Host σ)
    (args : List PyObject) (fd : Int) (buf : Py_buffer)
    (h : PyArg_ParseTuple args = some (fd, buf)) (ha : passes_assert env buf = true) :
    sock_send_from env st args =
      (.returned (transmit_result env st fd buf),
       { kernel := (env.sys_sendto st.kernel fd buf.buf buf.len 0 (kernel_dest env.stack_pad)
                      sizeof_sockaddr_nl).2,
         gil := true,
         log := st.log ++ run_entries env st fd buf }) := by
  have hc : (!env.NDEBUG && !(buf.buf.isSome && decide (0 < buf.len))) = false := by
    simp only [passes_assert] at ha
    cases hN : env.NDEBUG <;> simp_all
  simp only [sock_send_from, h, hc]
  simp [PyInt_FromLong, PyBuffer_Release, Py_END_ALLOW_THREADS, sendto, Py_BEGIN_ALLOW_THREADS,
    run_entries, transmit_result, kernel_dest]

lemma events_of_call_of_parse_none {σ : Type} (env : Env σ) (st : Host σ)
    (args : List PyObject) (h : PyArg_ParseTuple args = none) :
    events_of_call env st args = [] := by
  simp [events_of_call, sock_send_from_of_parse_none env st args h]

lemma events_of_call_of_assert_fails {σ : Type} (env : Env σ) (st : Host σ)
    (args : List PyObject) (fd : Int) (buf : Py_buffer)
    (h : PyArg_ParseTuple args = some (fd, buf)) (ha : passes_assert env buf = false) :
    events_of_call env st args = [] := by
  simp [events_of_call, sock_send_from_of_assert_fails env st args fd buf h ha]

lemma events_of_call_of_run {σ : Type} (env : Env σ) (st : Host σ)
    (args : List PyObject) (fd : Int) (buf : Py_buffer)
    (h : PyArg_ParseTuple args = some (fd, buf)) (ha : passes_assert env buf = true) :
    events_of_call env st args = run_entries env st fd buf := by
  simp [events_of_call, sock_send_from_of_run env st args fd buf h ha]

lemma parse_bytearray (fd : Int) (hfd : INT_MIN ≤ fd ∧ fd ≤ INT_MAX) (bs : List Nat) :
    PyArg_ParseTuple [.PyInt fd, bytearray bs] = some (fd, { buf := some bs, len := bs.length }) := by
  simp [PyArg_ParseTuple, convert_i, convert_w_star, bytearray, hfd]

lemma passes_assert_of_nonempty {σ : Type} (env : Env σ) (bs : List Nat) (hbs : bs ≠ []) :
    passes_assert env { buf := some bs, len := bs.length } = true := by
  have : 0 < bs.length := List.length_pos.mpr hbs
  simp [passes_assert, this]

/-- Whatever the arguments, a call that issues a transmit whose result is
`r` returns the integer `r`. -/
lemma returned_of_sendto_mem {σ : Type} (env : Env σ) (st : Host σ) (args : List PyObject)
    (f : Int) (p : Option (List Nat)) (l : Nat) (fl : Int) (d : sockaddr_nl) (a : Nat) (r : Int)
    (hmem : Event.sendto f p l fl d a r ∈ sendto_events (events_of_call env st args)) :
    (sock_send_from env st args).1 = Outcome.returned r := by
  cases hp : PyArg_ParseTuple args with
  | none =>
    rw [events_of_call_of_parse_none env st args hp] at hmem
    simp [sendto_events] at hmem
  | some x =>
    obtain ⟨fd, buf⟩ := x
    cases ha : passes_assert env buf with
    | false =>
      rw [events_of_call_of_assert_fails env st args fd buf hp ha] at hmem
      simp [sendto_events] at hmem
    | true =>
      rw [events_of_call_of_run env st args fd buf hp ha] at hmem
      rw [sock_send_from_of_run env st args fd buf hp ha]
      simp [sendto_events, run_entries, Event.is_sendto] at hmem
      simp [hmem.2.2.2.2.2.2]

/-! ## The destination address -/

/-- C1: in every call whose arguments parse successfully, every transmit of
the call is handed the destination address with family `AF_NETLINK`, pid 0
and groups 0 and the address length `sizeof(struct sockaddr_nl)`, whatever
the descriptor and the buffer are; and unless the call is aborted at the
assertion, the call does hand this address to a transmit. -/
theorem dest_address_is_constant {σ : Type} (env : Env σ) (st : Host σ)
    (args : List PyObject) (fd : Int) (buf : Py_buffer)
    (h : PyArg_ParseTuple args = some (fd, buf)) :
    (∀ e ∈ events_of_call env st args, ∀ f p l fl d a r,
        e.ev = Event.sendto f p l fl d a r →
          d.nl_family = AF_NETLINK ∧ d.nl_pid = 0 ∧ d.nl_groups = 0 ∧
            a = sizeof_sockaddr_nl) ∧
    ((sock_send_from env st args).1 ≠ Outcome.aborted →
      ∃ e ∈ events_of_call env st args, ∃ f p l fl d a r,
        e.ev = Event.sendto f p l fl d a r) := by
  cases ha : passes_assert env buf with
  | false =>
    rw [events_of_call_of_assert_fails env st args fd buf h ha,
      sock_send_from_of_assert_fails env st args fd buf h ha]
    simp
  | true =>
    rw [events_of_call_of_run env st args fd buf h ha]
    refine ⟨?_, fun _ => ?_⟩
    · intro e he f p l fl d a r hev
      simp only [run_entries, List.mem_cons, List.mem_singleton, List.not_mem_nil,
        or_false] at he
      rcases he with rfl | rfl | rfl | rfl | rfl <;> simp at hev
      obtain ⟨-, -, -, -, hd, hl, -⟩ := hev
      subst hd hl
      simp [kernel_dest]
    · exact ⟨_, List.mem_cons_of_mem _ (List.mem_cons_self _ _), _, _, _, _, _, _, _, rfl⟩

/-- Instance of C1: descriptor 3 and the one-byte buffer `[1]`. -/
theorem dest_address_is_constant_witness :
    PyArg_ParseTuple [PyObject.PyInt 3, bytearray [1]] = some (3, { buf := some [1], len := 1 }) ∧
    ((kernel_dest 0).nl_family = AF_NETLINK ∧ (kernel_dest 0).nl_pid = 0 ∧
      (kernel_dest 0).nl_groups = 0 ∧ 12 = sizeof_sockaddr_nl) :=
  ⟨by decide,
   (dest_address_is_constant (full_env true) init_host [PyObject.PyInt 3, bytearray [1]] 3
      { buf := some [1], len := 1 } (by decide)).1
      { gil_held := false, ev := Event.sendto 3 (some [1]) 1 0 (kernel_dest 0) 12 1 }
      (by decide) 3 (some [1]) 1 0 (kernel_dest 0) 12 1 rfl⟩

/-! ## The result is the result of the transmit -/

/-- C2: for every descriptor `fd` (a C `int`) and every non-empty buffer,
whatever the transmit gives (`sys_sendto` is arbitrary: the full length, a
short count or a negative number), if the call issues a transmit whose
result is `r` then the call returns the integer `r`; and for a read-write
contiguous buffer the call does issue the transmit and returns exactly its
result. -/
theorem send_from_returns_transmit_result {σ : Type} (env : Env σ) (st : Host σ)
    (fd : Int) (hfd : INT_MIN ≤ fd ∧ fd ≤ INT_MAX) (bs : List Nat) (hbs : bs ≠ [])
    (ro c : Bool) :
    (∀ f p l fl d a r,
        Event.sendto f p l fl d a r ∈
            sendto_events
              (events_of_call env st [PyObject.PyInt fd, PyObject.buffer (some bs) ro c]) →
          (sock_send_from env st [PyObject.PyInt fd, PyObject.buffer (some bs) ro c]).1 =
            Outcome.returned r) ∧
    (ro = false → c = true →
      (sock_send_from env st [PyObject.PyInt fd, PyObject.buffer (some bs) ro c]).1 =
          Outcome.returned
            (env.sys_sendto st.kernel fd (some bs) bs.length 0 (kernel_dest env.stack_pad)
              sizeof_sockaddr_nl).1 ∧
      sendto_events
          (events_of_call env st [PyObject.PyInt fd, PyObject.buffer (some bs) ro c]) =
        [Event.sendto fd (some bs) bs.length 0 (kernel_dest env.stack_pad) sizeof_sockaddr_nl
          (env.sys_sendto st.kernel fd (some bs) bs.length 0 (kernel_dest env.stack_pad)
            sizeof_sockaddr_nl).1]) := by
  have hrun := sock_send_from_of_run env st [PyObject.PyInt fd, bytearray bs] fd
    { buf := some bs, len := bs.length } (parse_bytearray fd hfd bs)
    (passes_assert_of_nonempty env bs hbs)
  have hev := events_of_call_of_run env st [PyObject.PyInt fd, bytearray bs] fd
    { buf := some bs, len := bs.length } (parse_bytearray fd hfd bs)
    (passes_assert_of_nonempty env bs hbs)
  by_cases hacc : ro = false ∧ c = true
  · obtain ⟨rfl, rfl⟩ := hacc
    simp only [bytearray] at hrun hev
    rw [hrun, hev]
    refine ⟨?_, fun _ _ => ⟨rfl, ?_⟩⟩
    · intro f p l fl d a r hmem
      simp [sendto_events, run_entries, Event.is_sendto, transmit_result] at hmem
      simp [transmit_result, hmem.2.2.2.2.2.2]
    · simp [sendto_events, run_entries, Event.is_sendto, transmit_result]
  · have hp : PyArg_ParseTuple [PyObject.PyInt fd, PyObject.buffer (some bs) ro c] = none := by
      cases ro <;> cases c <;> simp_all [PyArg_ParseTuple, convert_i, convert_w_star]
    rw [events_of_call_of_parse_none env st _ hp]
    refine ⟨?_, fun h1 h2 => absurd ⟨h1, h2⟩ hacc⟩
    intro f p l fl d a r hmem
    simp [sendto_events] at hmem

/-- Instance of C2: on descriptor 3 a transmit of three bytes that sends
only two of them; the call returns 2. -/
theorem send_from_returns_transmit_result_witness :
    (INT_MIN ≤ 3 ∧ 3 ≤ INT_MAX) ∧ [1, 2, 3] ≠ ([] : List Nat) ∧
    (sock_send_from (const_env false 2) init_host [PyObject.PyInt 3, bytearray [1, 2, 3]]).1 =
      Outcome.returned 2 :=
  ⟨by decide, by decide,
   ((send_from_returns_transmit_result (const_env false 2) init_host 3 (by decide) [1, 2, 3]
      (by decide) false true).2 rfl rfl).1⟩

/-! ## One transmit per call -/

/-- C3, as stated, fails: built with assertions enabled, the call
`send_from(3, bytearray())` parses successfully and is aborted at line 18
before any transmit, so the transmit is invoked zero times, not once. -/
theorem transmit_once_fails_on_empty_buffer :
    PyArg_ParseTuple [PyObject.PyInt 3, bytearray []] = some (3, { buf := some [], len := 0 }) ∧
    (sock_send_from (full_env false) init_host [PyObject.PyInt 3, bytearray []]).1 =
      Outcome.aborted ∧
    (sendto_events (events_of_call (full_env false) init_host
      [PyObject.PyInt 3, bytearray []])).length ≠ 1 := by
  decide

/-- C3, amended: in every call whose arguments parse successfully and which
gets past the assertion of line 18 (the module is built with `NDEBUG`, or the
buffer is non-null and non-empty), the transmit is invoked exactly once, with
the descriptor `fd`, the pointer `buf.buf`, the length `buf.len` and flags 0,
and the call returns; the kernel and the result of the transmit are
arbitrary, so this holds whatever the transmit returns. -/
theorem transmit_exactly_once {σ : Type} (env : Env σ) (st : Host σ)
    (args : List PyObject) (fd : Int) (buf : Py_buffer)
    (h : PyArg_ParseTuple args = some (fd, buf))
    (ha : env.NDEBUG = true ∨ (buf.buf ≠ none ∧ 0 < buf.len)) :
    sendto_events (events_of_call env st args) =
      [Event.sendto fd buf.buf buf.len 0 (kernel_dest env.stack_pad) sizeof_sockaddr_nl
        (env.sys_sendto st.kernel fd buf.buf buf.len 0 (kernel_dest env.stack_pad)
          sizeof_sockaddr_nl).1] ∧
    (sock_send_from env st args).1 ≠ Outcome.aborted := by
  have hp : passes_assert env buf = true := by
    rcases ha with hN | ⟨hb, hl⟩
    · simp [passes_assert, hN]
    · have : buf.buf.isSome = true := Option.isSome_iff_ne_none.mpr hb
      simp [passes_assert, this, hl]
  rw [events_of_call_of_run env st args fd buf h hp, sock_send_from_of_run env st args fd buf h hp]
  simp [sendto_events, run_entries, Event.is_sendto, transmit_result]

/-- Instance of C3 amended: a transmit that fails with -1 is not repeated. -/
theorem transmit_exactly_once_witness :
    PyArg_ParseTuple [PyObject.PyInt 3, bytearray [7, 8]] =
      some (3, { buf := some [7, 8], len := 2 }) ∧
    ((const_env false (-1)).NDEBUG = true ∨ ((some [7, 8] : Option (List Nat)) ≠ none ∧ 0 < 2)) ∧
    sendto_events (events_of_call (const_env false (-1)) init_host
        [PyObject.PyInt 3, bytearray [7, 8]]) =
      [Event.sendto 3 (some [7, 8]) 2 0 (kernel_dest 0) sizeof_sockaddr_nl (-1)] :=
  ⟨by decide, by decide,
   (transmit_exactly_once (const_env false (-1)) init_host [PyObject.PyInt 3, bytearray [7, 8]] 3
      { buf := some [7, 8], len := 2 } (by decide) (by decide)).1⟩

/-! ## The empty buffer -/

/-- C4, as stated, fails: built with `NDEBUG`, the call
`send_from(3, bytearray())` issues a transmit of length 0 and, the kernel
reporting 0 bytes sent, returns 0. -/
theorem empty_buffer_is_sent_with_ndebug :
    sendto_events (events_of_call (const_env true 0) init_host
        [PyObject.PyInt 3, bytearray []]) =
      [Event.sendto 3 (some []) 0 0 (kernel_dest 0) sizeof_sockaddr_nl 0] ∧
    (sock_send_from (const_env true 0) init_host [PyObject.PyInt 3, bytearray []]).1 =
      Outcome.returned 0 := by
  decide

/-- C4, amended: when the module is built with assertions enabled
(`NDEBUG` not defined), a call with any integer and an empty buffer object
(length 0, read-write or not, NULL or not) issues no transmit and does not
return an integer: it is aborted at line 18 or returns NULL. -/
theorem empty_buffer_rejected_when_assert_enabled {σ : Type} (env : Env σ) (st : Host σ)
    (hN : env.NDEBUG = false) (fd : Int) (mem : Option (List Nat)) (ro c : Bool)
    (hlen : (mem.getD []).length = 0) :
    sendto_events (events_of_call env st [PyObject.PyInt fd, PyObject.buffer mem ro c]) = [] ∧
    ((sock_send_from env st [PyObject.PyInt fd, PyObject.buffer mem ro c]).1 = Outcome.aborted ∨
      (sock_send_from env st [PyObject.PyInt fd, PyObject.buffer mem ro c]).1 = Outcome.NULL) := by
  cases hp : PyArg_ParseTuple [PyObject.PyInt fd, PyObject.buffer mem ro c] with
  | none =>
    rw [events_of_call_of_parse_none env st _ hp, sock_send_from_of_parse_none env st _ hp]
    simp [sendto_events]
  | some r =>
    obtain ⟨fd1, buf⟩ := r
    have hbuf : buf.len = 0 := by
      cases ro <;> cases c <;>
        simp only [PyArg_ParseTuple, convert_i, convert_w_star] at hp <;>
        split at hp <;> simp at hp
      rw [← hp.2]
      exact hlen
    have ha : passes_assert env buf = false := by
      simp [passes_assert, hN, hbuf]
    rw [events_of_call_of_assert_fails env st _ fd1 buf hp ha,
      sock_send_from_of_assert_fails env st _ fd1 buf hp ha]
    simp [sendto_events]

/-- Instance of C4 amended: `send_from(3, bytearray())` with assertions
enabled is aborted without a transmit. -/
theorem empty_buffer_rejected_when_assert_enabled_witness :
    (full_env false).NDEBUG = false ∧ ((some [] : Option (List Nat)).getD []).length = 0 ∧
    sendto_events (events_of_call (full_env false) init_host
      [PyObject.PyInt 3, PyObject.buffer (some []) false true]) = [] :=
  ⟨rfl, rfl,
   (empty_buffer_rejected_when_assert_enabled (full_env false) init_host rfl 3 (some [])
      false true rfl).1⟩

/-! ## A failing transmit -/

/-- C5: for every non-empty buffer and every descriptor (in particular
-1), if the transmit issued by the call fails, that is gives a negative
number `r`, then the call returns normally the integer `r`, which is
negative: the call is neither aborted nor does it return NULL; and for a
read-write contiguous buffer on a descriptor for which `sendto` fails the
call does issue the transmit and returns a negative integer. -/
theorem send_from_negative_on_failed_transmit {σ : Type} (env : Env σ) (st : Host σ)
    (fd : Int) (hfd : INT_MIN ≤ fd ∧ fd ≤ INT_MAX) (bs : List Nat) (hbs : bs ≠ [])
    (ro c : Bool) :
    (∀ f p l fl d a r,
        Event.sendto f p l fl d a r ∈
            sendto_events
              (events_of_call env st [PyObject.PyInt fd, PyObject.buffer (some bs) ro c]) →
          r < 0 →
            ∃ n : Int,
              (sock_send_from env st [PyObject.PyInt fd, PyObject.buffer (some bs) ro c]).1 =
                Outcome.returned n ∧ n < 0) ∧
    (ro = false → c = true →
      (env.sys_sendto st.kernel fd (some bs) bs.length 0 (kernel_dest env.stack_pad)
        sizeof_sockaddr_nl).1 < 0 →
      ∃ n : Int,
        (sock_send_from env st [PyObject.PyInt fd, PyObject.buffer (some bs) ro c]).1 =
          Outcome.returned n ∧ n < 0 ∧
        sendto_events
            (events_of_call env st [PyObject.PyInt fd, PyObject.buffer (some bs) ro c]) =
          [Event.sendto fd (some bs) bs.length 0 (kernel_dest env.stack_pad) sizeof_sockaddr_nl
            n]) := by
  refine ⟨fun f p l fl d a r hmem hr =>
    ⟨r, returned_of_sendto_mem env st _ f p l fl d a r hmem, hr⟩, ?_⟩
  rintro rfl rfl hfail
  have hrun := sock_send_from_of_run env st [PyObject.PyInt fd, bytearray bs] fd
    { buf := some bs, len := bs.length } (parse_bytearray fd hfd bs)
    (passes_assert_of_nonempty env bs hbs)
  have hev := events_of_call_of_run env st [PyObject.PyInt fd, bytearray bs] fd
    { buf := some bs, len := bs.length } (parse_bytearray fd hfd bs)
    (passes_assert_of_nonempty env bs hbs)
  simp only [bytearray] at hrun hev
  refine ⟨_, ?_, hfail, ?_⟩
  · rw [hrun]
    rfl
  · rw [hev]
    simp [sendto_events, run_entries, Event.is_sendto, transmit_result]

/-- Instance of C5: the descriptor -1, on which `sendto` gives -1. -/
theorem send_from_negative_on_failed_transmit_witness :
    (INT_MIN ≤ -1 ∧ (-1 : Int) ≤ INT_MAX) ∧ [16, 0, 0, 0] ≠ ([] : List Nat) ∧
    ((full_env false).sys_sendto init_host.kernel (-1) (some [16, 0, 0, 0]) 4 0
      (kernel_dest 0) sizeof_sockaddr_nl).1 < 0 ∧
    ∃ n : Int, (sock_send_from (full_env false) init_host
      [PyObject.PyInt (-1), bytearray [16, 0, 0, 0]]).1 = Outcome.returned n ∧ n < 0 :=
  ⟨by decide, by decide, by decide,
   ((send_from_negative_on_failed_transmit (full_env false) init_host (-1) (by decide)
      [16, 0, 0, 0] (by decide) false true).2 rfl rfl (by decide)).imp
     (fun _ hn => ⟨hn.1, hn.2.1⟩)⟩

/-! ## Which buffers are accepted -/

/-- C6, as stated, fails: the read-only one-byte buffer of a `str` is a
contiguous readable region of length 1, yet `send_from(3, "a")` fails
argument parsing, returns NULL and issues no transmit. -/
theorem read_only_buffer_is_refused :
    PyArg_ParseTuple [PyObject.PyInt 3, PyObject.buffer (some [97]) true true] = none ∧
    (sock_send_from (full_env true) init_host
      [PyObject.PyInt 3, PyObject.buffer (some [97]) true true]).1 = Outcome.NULL ∧
    sendto_events (events_of_call (full_env true) init_host
      [PyObject.PyInt 3, PyObject.buffer (some [97]) true true]) = [] := by
  decide

/-- C6, amended: `send_from` accepts as its buffer argument every contiguous
read-write byte region of length at least 1: for every such buffer and every
descriptor (an integer fitting a C `int`), argument parsing succeeds and the
transmit of the whole region is issued; for a read-only region argument
parsing fails. -/
theorem read_write_buffer_is_accepted {σ : Type} (env : Env σ) (st : Host σ)
    (fd : Int) (hfd : INT_MIN ≤ fd ∧ fd ≤ INT_MAX) (bs : List Nat) (hbs : 1 ≤ bs.length) :
    PyArg_ParseTuple [PyObject.PyInt fd, PyObject.buffer (some bs) false true] =
      some (fd, { buf := some bs, len := bs.length }) ∧
    transmits (events_of_call env st [PyObject.PyInt fd, PyObject.buffer (some bs) false true]) =
      [(fd, bs)] ∧
    (∀ c : Bool,
      PyArg_ParseTuple [PyObject.PyInt fd, PyObject.buffer (some bs) true c] = none) := by
  have hne : bs ≠ [] := List.length_pos.mp hbs
  refine ⟨parse_bytearray fd hfd bs, ?_, ?_⟩
  · have hev := events_of_call_of_run env st [PyObject.PyInt fd, bytearray bs] fd
      { buf := some bs, len := bs.length } (parse_bytearray fd hfd bs)
      (passes_assert_of_nonempty env bs hne)
    simp only [bytearray] at hev
    rw [hev]
    simp [transmits, run_entries, Event.wire]
  · intro c
    simp [PyArg_ParseTuple, convert_i, convert_w_star, hfd]

/-- Instance of C6 amended: descriptor 3 and the `bytearray` of the byte 97. -/
theorem read_write_buffer_is_accepted_witness :
    (INT_MIN ≤ 3 ∧ 3 ≤ INT_MAX) ∧ 1 ≤ [97].length ∧
    transmits (events_of_call (full_env true) init_host
      [PyObject.PyInt 3, PyObject.buffer (some [97]) false true]) = [(3, [97])] :=
  ⟨by decide, by decide,
   (read_write_buffer_is_accepted (full_env true) init_host 3 (by decide) [97] (by decide)).2.1⟩

/-! ## The number of arguments -/

/-- C7, the code at the failing inputs: whatever the build and the kernel,
a call with the two required arguments followed by `len`, by `len, flags` or
by `len, flags, addr` fails argument parsing: it returns NULL and leaves the
host as it was, so nothing is sent. -/
theorem optional_arguments_are_refused {σ : Type} (env : Env σ) (st : Host σ) :
    sock_send_from env st [PyObject.PyInt 3, bytearray [0], PyObject.PyInt 1] =
      (Outcome.NULL, st) ∧
    sock_send_from env st [PyObject.PyInt 3, bytearray [0], PyObject.PyInt 1, PyObject.PyInt 0] =
      (Outcome.NULL, st) ∧
    sock_send_from env st
        [PyObject.PyInt 3, bytearray [0], PyObject.PyInt 1, PyObject.PyInt 0, PyObject.other] =
      (Outcome.NULL, st) := by
  refine ⟨?_, ?_, ?_⟩ <;> exact sock_send_from_of_parse_none env st _ rfl

/-! ## The interpreter lock -/

/-- C8: in every call entered with the interpreter lock held and whose
arguments parse successfully, every transmit is issued while the lock is not
held, and the only actions started while the lock is not held are the
transmit and the reacquisition itself; unless the call is aborted at the
assertion, its actions are, in this order: release of the lock (lock held),
the transmit (lock not held), reacquisition of the lock, release of the
buffer view (lock held), construction of the result integer (lock held), and
the call ends with the lock held. -/
theorem transmit_runs_without_lock {σ : Type} (env : Env σ) (st : Host σ)
    (args : List PyObject) (fd : Int) (buf : Py_buffer)
    (h : PyArg_ParseTuple args = some (fd, buf)) (hg : st.gil = true) :
    (∀ e ∈ events_of_call env st args, e.ev.is_sendto = true → e.gil_held = false) ∧
    (∀ e ∈ events_of_call env st args, e.gil_held = false →
      e.ev.is_sendto = true ∨ e.ev = Event.restore_thread) ∧
    ((sock_send_from env st args).1 ≠ Outcome.aborted →
      ∃ r : Int,
        events_of_call env st args =
          [{ gil_held := true, ev := Event.save_thread },
           { gil_held := false,
             ev := Event.sendto fd buf.buf buf.len 0 (kernel_dest env.stack_pad)
                     sizeof_sockaddr_nl r },
           { gil_held := false, ev := Event.restore_thread },
           { gil_held := true, ev := Event.buffer_release buf },
           { gil_held := true, ev := Event.int_from_long r }] ∧
        (sock_send_from env st args).1 = Outcome.returned r ∧
        (sock_send_from env st args).2.gil = true) := by
  cases ha : passes_assert env buf with
  | false =>
    rw [events_of_call_of_assert_fails env st args fd buf h ha,
      sock_send_from_of_assert_fails env st args fd buf h ha]
    simp
  | true =>
    rw [events_of_call_of_run env st args fd buf h ha,
      sock_send_from_of_run env st args fd buf h ha]
    refine ⟨?_, ?_, fun _ => ⟨transmit_result env st fd buf, ?_, rfl, rfl⟩⟩
    · intro e he
      simp only [run_entries, List.mem_cons, List.mem_singleton, List.not_mem_nil,
        or_false] at he
      rcases he with rfl | rfl | rfl | rfl | rfl <;> simp [Event.is_sendto]
    · intro e he
      simp only [run_entries, List.mem_cons, List.mem_singleton, List.not_mem_nil,
        or_false] at he
      rcases he with rfl | rfl | rfl | rfl | rfl <;> simp [Event.is_sendto, hg]
    · simp [run_entries, hg]

/-- Instance of C8: the call `send_from(3, bytearray([1, 2]))` on a kernel
that sends everything. -/
theorem transmit_runs_without_lock_witness :
    PyArg_ParseTuple [PyObject.PyInt 3, bytearray [1, 2]] =
      some (3, { buf := some [1, 2], len := 2 }) ∧
    init_host.gil = true ∧
    (∀ e ∈ events_of_call (full_env false) init_host [PyObject.PyInt 3, bytearray [1, 2]],
      e.ev.is_sendto = true → e.gil_held = false) :=
  ⟨by decide, rfl,
   (transmit_runs_without_lock (full_env false) init_host [PyObject.PyInt 3, bytearray [1, 2]] 3
      { buf := some [1, 2], len := 2 } (by decide) rfl).1⟩

/-! ## Serial calls -/

lemma transmits_append (l1 l2 : List Entry) :
    transmits (l1 ++ l2) = transmits l1 ++ transmits l2 := by
  simp [transmits]

lemma sendto_events_append (l1 l2 : List Entry) :
    sendto_events (l1 ++ l2) = sendto_events l1 ++ sendto_events l2 := by
  simp [sendto_events]

lemma transmits_run_entries {σ : Type} (env : Env σ) (st : Host σ) (fd : Int) (bs : List Nat) :
    transmits (run_entries env st fd { buf := some bs, len := bs.length }) = [(fd, bs)] := by
  simp [transmits, run_entries, Event.wire]

lemma sendto_events_run_entries_length {σ : Type} (env : Env σ) (st : Host σ) (fd : Int)
    (buf : Py_buffer) : (sendto_events (run_entries env st fd buf)).length = 1 := by
  simp [sendto_events, run_entries, Event.is_sendto]

/-- C9: for every descriptor `fd` and every finite list of non-empty
buffers passed to `send_from` one call after another, starting from any host
state and with any kernel (so whatever each transmit returns), the transmits
added to the log are exactly `(fd, b1), ..., (fd, bn)` in call order, one
transmit per call, and every call returns an integer. -/
theorem serial_calls_transmit_in_call_order {σ : Type} (env : Env σ) (st : Host σ)
    (fd : Int) (hfd : INT_MIN ≤ fd ∧ fd ≤ INT_MAX) (bss : List (List Nat))
    (hne : ∀ b ∈ bss, b ≠ []) :
    transmits (serial_calls env (PyObject.PyInt fd) st (bss.map bytearray)).2.log =
      transmits st.log ++ bss.map (fun b => (fd, b)) ∧
    (sendto_events (serial_calls env (PyObject.PyInt fd) st (bss.map bytearray)).2.log).length =
      (sendto_events st.log).length + bss.length ∧
    (serial_calls env (PyObject.PyInt fd) st (bss.map bytearray)).1.length = bss.length ∧
    (∀ o ∈ (serial_calls env (PyObject.PyInt fd) st (bss.map bytearray)).1,
      ∃ n : Int, o = Outcome.returned n) := by
  induction bss generalizing st with
  | nil => simp [serial_calls]
  | cons b rest ih =>
    have hb : b ≠ [] := hne b (List.mem_cons_self _ _)
    have hrest : ∀ x ∈ rest, x ≠ [] := fun x hx => hne x (List.mem_cons_of_mem _ hx)
    have hstep := sock_send_from_of_run env st [PyObject.PyInt fd, bytearray b] fd
      { buf := some b, len := b.length } (parse_bytearray fd hfd b)
      (passes_assert_of_nonempty env b hb)
    obtain ⟨ih1, ih2, ih3, ih4⟩ := ih
      { kernel := (env.sys_sendto st.kernel fd (some b) b.length 0 (kernel_dest env.stack_pad)
                    sizeof_sockaddr_nl).2,
        gil := true,
        log := st.log ++ run_entries env st fd { buf := some b, len := b.length } } hrest
    simp only [List.map_cons, serial_calls, hstep]
    refine ⟨?_, ?_, ?_, ?_⟩
    · rw [ih1, transmits_append, transmits_run_entries]
      simp
    · rw [ih2, sendto_events_append, List.length_append, sendto_events_run_entries_length]
      simp only [List.length_cons]
      omega
    · simp [ih3]
    · intro o ho
      rcases List.mem_cons.mp ho with rfl | ho
      · exact ⟨_, rfl⟩
      · exact ih4 o ho

/-- Instance of C9: two buffers sent on descriptor 3, of which the kernel
reports -1 for both; both are transmitted, in call order. -/
theorem serial_calls_transmit_in_call_order_witness :
    (INT_MIN ≤ 3 ∧ 3 ≤ INT_MAX) ∧ (∀ b ∈ [[1, 2], [3]], b ≠ ([] : List Nat)) ∧
    transmits (serial_calls (const_env false (-1)) (PyObject.PyInt 3) init_host
      ([[1, 2], [3]].map bytearray)).2.log = [(3, [1, 2]), (3, [3])] :=
  ⟨by decide, by decide,
   (serial_calls_transmit_in_call_order (const_env false (-1)) init_host 3 (by decide)
      [[1, 2], [3]] (by decide)).1⟩

/-! ## Failed argument parsing -/

/-- C10: every argument tuple that fails argument parsing has a number of
arguments other than two, or a first argument that is not an integer fitting
a C `int`, or a second argument that is not a read-write contiguous buffer;
for every such tuple `sock_send_from` returns NULL and leaves the host as it
was: the call adds no action to the log (no transmit, no release of the
lock, no release of a buffer view) and the lock stays as it was. -/
theorem parse_failure_returns_null {σ : Type} (env : Env σ) (st : Host σ)
    (args : List PyObject) (h : PyArg_ParseTuple args = none) :
    (args.length ≠ 2 ∨
      ∃ a b, args = [a, b] ∧
        ((∀ v : Int, a = PyObject.PyInt v → ¬ (INT_MIN ≤ v ∧ v ≤ INT_MAX)) ∨
          (∀ mem : Option (List Nat), b ≠ PyObject.buffer mem false true))) ∧
    sock_send_from env st args = (Outcome.NULL, st) ∧
    events_of_call env st args = [] := by
  refine ⟨?_, sock_send_from_of_parse_none env st args h,
    events_of_call_of_parse_none env st args h⟩
  match args, h with
  | [], _ => exact Or.inl (by simp)
  | [_], _ => exact Or.inl (by simp)
  | _ :: _ :: _ :: _, _ => exact Or.inl (by simp)
  | [a, b], h =>
    refine Or.inr ⟨a, b, rfl, ?_⟩
    by_contra hcon
    push_neg at hcon
    obtain ⟨⟨v, rfl, hv⟩, ⟨mem, rfl⟩⟩ := hcon
    simp [PyArg_ParseTuple, convert_i, convert_w_star, hv] at h

/-- Instance of C10: `send_from("x", bytearray([1]))`, whose first argument
is not an integer. -/
theorem parse_failure_returns_null_witness :
    PyArg_ParseTuple [PyObject.buffer (some [120]) true true, bytearray [1]] = none ∧
    sock_send_from (full_env true) init_host
        [PyObject.buffer (some [120]) true true, bytearray [1]] =
      (Outcome.NULL, init_host) :=
  ⟨by decide,
   (parse_failure_returns_null (full_env true) init_host
      [PyObject.buffer (some [120]) true true, bytearray [1]] (by decide)).2.1⟩

/-- The three causes named in C10 do make argument parsing fail. -/
lemma parse_fails_of_cause (args : List PyObject)
    (h : args.length ≠ 2 ∨
      ∃ a b, args = [a, b] ∧
        ((∀ v : Int, a = PyObject.PyInt v → ¬ (INT_MIN ≤ v ∧ v ≤ INT_MAX)) ∨
          (∀ mem : Option (List Nat), b ≠ PyObject.buffer mem false true))) :
    PyArg_ParseTuple args = none := by
  rcases h with h | ⟨a, b, rfl, h | h⟩
  · match args, h with
    | [], _ => rfl
    | [_], _ => rfl
    | _ :: _ :: _ :: _, _ => rfl
    | [_, _], h => simp at h
  · cases a with
    | PyInt v => simp [PyArg_ParseTuple, convert_i, h v rfl]
    | buffer _ _ _ => simp [PyArg_ParseTuple, convert_i]
    | other => simp [PyArg_ParseTuple, convert_i]
  · cases ha : convert_i a with
    | none => simp [PyArg_ParseTuple, ha]
    | some fd =>
      cases b with
      | PyInt v => simp [PyArg_ParseTuple, ha, convert_w_star]
      | other => simp [PyArg_ParseTuple, ha, convert_w_star]
      | buffer mem ro c =>
        cases ro <;> cases c <;> simp [PyArg_ParseTuple, ha, convert_w_star]
        exact absurd rfl (h mem)

end Send
